import Mathlib

/-!
Shallow embedding of kraft's configure command (src/kraft/cmd/configure.py):
option normalization in cmd_configure, target resolution and orchestration
in kraft_configure, and the missing-component fetch-then-retry recovery.
External collaborators (kraft.const, the application/project model, the
interactive prompt, the fetch workflow) are modelled at the boundary the
specification gives for them.
-/

set_option autoImplicit false

namespace Kraft

/-- Modelled from the spec: kraft.const is not among the reviewed sources.
This is the engine's key namespace that bare option tokens receive during
normalization (the spec's "KEY_" in examples; kraft's Kconfig namespace). -/
def KCONFIG_NS : String := "CONFIG_"

/-- Modelled from the spec: the KCONFIG format applied to a bare token
prepends the engine's key namespace. -/
def KCONFIG (s : String) : String := KCONFIG_NS ++ s

/-- Modelled from the spec: the value emitted for an enabled option. -/
def KCONFIG_Y : String := "y"

/-- Modelled from the spec: the value emitted for a disabled option. -/
def KCONFIG_N : String := "n"

/-- Modelled from the spec: KCONFIG_EQ serializes an assignment as KEY=VALUE. -/
def KCONFIG_EQ (k v : String) : String := k ++ "=" ++ v

/-- Namespace normalization of one token (configure.py lines 128-130 etc.):
a token that does not already carry the namespace gets it prepended. -/
def normKey (tok : String) : String :=
  if tok.startsWith KCONFIG_NS then tok else KCONFIG tok

/-- The two failures option normalization can raise (logger.critical followed
by sys.exit(1) in the source; the spec names them ConflictingOption and
MissingOptionValue). -/
inductive NormError where
  | conflictingOption (key : String)
  | missingOptionValue (tok : String)
  deriving Repr, DecidableEq

/-- The disable loop of cmd_configure (lines 132-138): normalize the token,
fail when it already occurs as an element of the accumulated options list,
otherwise append KEY=n. -/
def procNo : List String → List String → Except NormError (List String)
  | [], options => .ok options
  | n :: rest, options =>
    let k := normKey n
    if options.contains k then .error (.conflictingOption k)
    else procNo rest (options ++ [KCONFIG_EQ k KCONFIG_N])

/-- Python's membership test of a character in a string, over the string's
characters. -/
def strHasChar (s : String) (c : Char) : Bool := s.data.contains c

/-- The set loop of cmd_configure (lines 139-145): normalize the token, fail
when no literal equals sign is present, otherwise append the token itself. -/
def procSet : List String → List String → Except NormError (List String)
  | [], options => .ok options
  | o :: rest, options =>
    let k := normKey o
    if strHasChar k ('=') then procSet rest (options ++ [k])
    else .error (.missingOptionValue k)

/-- Option normalization of cmd_configure (lines 127-145): enable entries
first, then disable entries, then explicit settings. -/
def normalizeOptions (yes no opts : List String) : Except NormError (List String) :=
  let options := yes.foldl (fun acc y => acc ++ [KCONFIG_EQ (normKey y) KCONFIG_Y]) []
  match procNo no options with
  | .error e => .error e
  | .ok options => procSet opts options

/-- A build target: optional human name plus the mandatory architecture and
platform names the scan compares against (t.name, t.architecture.name,
t.platform.name in the source). -/
structure Target where
  name : Option String
  architecture : String
  platform : String
  deriving Repr, DecidableEq

/-- Modelled from the spec: the application model is not among the reviewed
sources; per its boundary, Application.binaries() yields Binary entities
carrying a filesystem path and an optional associated target name (the
source reads t.binary and t.name from them). -/
structure Binary where
  binary : String
  name : Option String
  deriving Repr, DecidableEq

/-- Modelled from the spec: the slice of the external application model the
reviewed code consults — its declared targets in order, its binaries in
order, and whether it is already configured. -/
structure AppModel where
  targets : List Target
  binaries : List Binary
  isConfigured : Bool
  deriving Repr, DecidableEq

/-- The possible values of the local variable named target inside
kraft_configure: a declared Target, a Binary entity, the caller's raw
target-name string, or Python's None. -/
inductive ResolvedValue where
  | tgt (t : Target)
  | bin (b : Binary)
  | str (s : String)
  | unset
  deriving Repr, DecidableEq

/-- The value the target variable holds before resolution: the caller's
string when a name was supplied, otherwise None. -/
def initialValue : Option String → ResolvedValue
  | some s => .str s
  | Option.none => .unset

/-- One iteration's matching condition in the target scan (lines 237-247):
either a target name was supplied and equals this target's name, or both an
architecture and a platform were supplied and equal this target's pair. -/
def step3Match (tname arch plat : Option String) (t : Target) : Bool :=
  (tname.isSome && tname == t.name) ||
    (arch == some t.architecture && plat == some t.platform)

/-- The scan over declared targets with early break (lines 237-247): the
first qualifying target wins; with no match the variable keeps its prior
value. -/
def resolveStep3 (tname arch plat : Option String) :
    List Target → ResolvedValue → ResolvedValue
  | [], acc => acc
  | t :: rest, acc =>
    if step3Match tname arch plat t then .tgt t
    else resolveStep3 tname arch plat rest acc

/-- The automatic resolution chain of kraft_configure (lines 230-247):
single declared target, else single binary, else the ordered scan. -/
def resolveAuto (app : AppModel) (tname arch plat : Option String) : ResolvedValue :=
  match app.targets with
  | [t] => .tgt t
  | ts =>
    match app.binaries with
    | [b] => .bin b
    | _ => resolveStep3 tname arch plat ts (initialValue tname)

/-- os.path.basename as the source uses it: the characters after the last
slash. -/
def basename (p : String) : String :=
  String.mk ((p.data.reverse.takeWhile (fun c => c ≠ '/')).reverse)

/-- The label shown for one binary in the interactive prompt (lines 253-258):
the basename, suffixed with the target name in parentheses when present. -/
def binLabel (b : Binary) : String :=
  match b.name with
  | some n => basename b.binary ++ " (" ++ n ++ ")"
  | Option.none => basename b.binary

/-- The backward scan from the chosen label (lines 270-273): the first binary
whose plain basename equals the answer; with no match the variable stays
None. -/
def backwardMatch (answer : String) : List Binary → ResolvedValue
  | [] => .unset
  | b :: rest =>
    if answer == basename b.binary then .bin b else backwardMatch answer rest

/-- The full resolution pipeline of kraft_configure: automatic resolution,
then, exactly when the variable is still None, the interactive fallback
mapped back by basename. -/
def fullResolve (app : AppModel) (tname arch plat : Option String)
    (answer : String) : ResolvedValue :=
  match resolveAuto app tname arch plat with
  | .unset => backwardMatch answer app.binaries
  | r => r

/-- The failures kraft_configure and the engine can raise (the spec's names
for them; the source raises ValueError, KraftError for the non-interactive
menuconfig case, CannotConfigureApplication, and MissingComponent). -/
inductive KraftError where
  | valueError
  | nonInteractiveMenuConfig
  | cannotConfigureApplication
  | missingComponent (component : String)
  | engineError (msg : String)
  deriving Repr, DecidableEq

/-- Observable effects of one kraft_configure run, in order: the application
load, the menu editor hand-off, the interactive prompt with its choices, the
engine configure call with the value, options and force flag it receives,
and the YAML persistence. -/
inductive KraftEvent where
  | appLoaded
  | menuconfigOpened
  | promptInvoked (choices : List String)
  | configured (target : ResolvedValue) (options : List String) (force : Bool)
  | savedYaml
  deriving Repr, DecidableEq

/-- The world one kraft_configure run observes: whether the working directory
exists, whether stdout is a tty, the application model, the operator's answer
to the overwrite confirmation, the label the operator picks at the prompt,
and the outcome of the engine's configure call. -/
structure KraftEnv where
  workdirExists : Bool
  isatty : Bool
  app : AppModel
  confirmOverwrite : Bool
  promptAnswer : String
  engineResult : Option KraftError
  deriving Repr, DecidableEq

/-- kraft_configure (lines 198-281): workdir check, application load,
menu-editor short circuit, already-configured confirmation, resolution with
interactive fallback, the engine configure call and persistence.  Returns
the event trace and the error raised, if any. -/
def kraftConfigure (env : KraftEnv) (tname arch plat : Option String)
    (force showMenuconfig : Bool) (options : List String) :
    List KraftEvent × Option KraftError :=
  if env.workdirExists = false then ([], some .valueError)
  else
    let tr := [KraftEvent.appLoaded]
    if showMenuconfig then
      if env.isatty then (tr ++ [.menuconfigOpened], Option.none)
      else (tr, some .nonInteractiveMenuConfig)
    else
      let fa : Bool × Bool :=
        if env.app.isConfigured && !force then
          if env.confirmOverwrite then (true, false) else (force, true)
        else (force, false)
      if fa.2 then (tr, some .cannotConfigureApplication)
      else
        let force := fa.1
        let r0 := resolveAuto env.app tname arch plat
        let step : List KraftEvent × ResolvedValue :=
          if r0 = ResolvedValue.unset then
            (tr ++ [.promptInvoked (env.app.binaries.map binLabel)],
             backwardMatch env.promptAnswer env.app.binaries)
          else (tr, r0)
        let tr2 := step.1 ++ [.configured step.2 options force]
        match env.engineResult with
        | some e => (tr2, some e)
        | Option.none => (tr2 ++ [.savedYaml], Option.none)

/-- How one invocation of cmd_configure can end before the recovery handlers
run: a normalization failure exits the process directly; any failure out of
kraft_configure reaches the handlers. -/
inductive CmdFailure where
  | normFailure (e : NormError)
  | kraftFailure (e : KraftError)
  deriving Repr, DecidableEq

/-- cmd_configure up to its exception handling (lines 122-158): option
normalization runs first and a normalization failure exits before
kraft_configure is invoked, hence before the application is loaded. -/
def cmdConfigure (env : KraftEnv) (tname arch plat : Option String)
    (force showMenuconfig : Bool) (yes no opts : List String) :
    List KraftEvent × Option CmdFailure :=
  match normalizeOptions yes no opts with
  | .error e => ([], some (.normFailure e))
  | .ok options =>
    let r := kraftConfigure env tname arch plat force showMenuconfig options
    (r.1, r.2.map .kraftFailure)

/-- How a whole cmd_configure invocation, recovery included, ends; outOfFuel
marks that the embedding's step bound was exhausted while the source would
still be recursing. -/
inductive RunResult where
  | exitZero
  | exitNonZero
  | outOfFuel
  deriving Repr, DecidableEq

/-- Does this outcome of kraft_configure match the except MissingComponent
handler? -/
def isMissingErr : Option KraftError → Bool
  | some (.missingComponent _) => true
  | _ => false

/-- The fetch-then-reconfigure recovery of cmd_configure (lines 160-186), with
ctx.forward(cmd_configure, force_configure=True) as re-entry: envs i is the
world the i-th configure attempt observes, fetchOk i the outcome of the i-th
pull, and fuel bounds only the embedding's recursion depth — the source
recursion carries no such bound.  Returns the run outcome and how many
fetches were performed. -/
def cmdConfigureRun (envs : Nat → KraftEnv) (fetchOk : Nat → Bool)
    (confirmPull verbose : Bool) (tname arch plat : Option String)
    (showMenuconfig : Bool) (options : List String) :
    Nat → Nat → Bool → Nat → RunResult × Nat
  | 0, _, _, fetchCount => (.outOfFuel, fetchCount)
  | fuel + 1, attempt, force, fetchCount =>
    match (kraftConfigure (envs attempt) tname arch plat force showMenuconfig options).2 with
    | Option.none => (.exitZero, fetchCount)
    | some (.missingComponent _) =>
      if force || confirmPull then
        if fetchOk fetchCount then
          cmdConfigureRun envs fetchOk confirmPull verbose tname arch plat
            showMenuconfig options fuel (attempt + 1) true (fetchCount + 1)
        else (.exitNonZero, fetchCount + 1)
      else if verbose then (.exitNonZero, fetchCount)
      else (.exitZero, fetchCount)
    | some _ => (.exitNonZero, fetchCount)

/-- A first declared target used by the concrete scenarios below. -/
def tgtA : Target := { name := some ("app-kvm"), architecture := "x86_64", platform := "kvm" }

/-- A second declared target used by the concrete scenarios below. -/
def tgtB : Target := { name := some ("app-xen"), architecture := "arm64", platform := "xen" }

/-- The binary associated by name with the first target. -/
def binA : Binary := { binary := "build/app_kvm-x86_64", name := some ("app-kvm") }

/-- The binary associated by name with the second target. -/
def binB : Binary := { binary := "build/app_xen-arm64", name := some ("app-xen") }

/-- Two targets, a single binary: the single-binary shortcut scenario. -/
def appOneBin : AppModel := { targets := [tgtA, tgtB], binaries := [binA], isConfigured := false }

/-- Two targets, two binaries: the scan and interactive-fallback scenario. -/
def appTwoBin : AppModel := { targets := [tgtA, tgtB], binaries := [binA, binB], isConfigured := false }

/-- One declared target, no binaries: the single-target shortcut scenario. -/
def appSingle : AppModel := { targets := [tgtA], binaries := [], isConfigured := false }

/-- A benign world over the two-binary application: directory present, tty
attached, engine succeeding. -/
def envTwoBin : KraftEnv :=
  { workdirExists := true, isatty := true, app := appTwoBin,
    confirmOverwrite := false, promptAnswer := "", engineResult := Option.none }

/-- The same world detached from any terminal. -/
def envNoTty : KraftEnv :=
  { workdirExists := true, isatty := false, app := appTwoBin,
    confirmOverwrite := false, promptAnswer := "", engineResult := Option.none }

/-- A benign world over the single-binary application. -/
def envOneBin : KraftEnv :=
  { workdirExists := true, isatty := true, app := appOneBin,
    confirmOverwrite := false, promptAnswer := "", engineResult := Option.none }

/-- A world whose engine configure call always reports a missing component. -/
def envMissing : KraftEnv :=
  { workdirExists := true, isatty := true, app := appSingle,
    confirmOverwrite := false, promptAnswer := "",
    engineResult := some (.missingComponent ("unikraft")) }


/-- The hand-rolled scan with break equals the library first-match search. -/
theorem resolveStep3_eq_find (tname arch plat : Option String)
    (ts : List Target) (init : ResolvedValue) :
    resolveStep3 tname arch plat ts init =
      (match ts.find? (step3Match tname arch plat) with
       | some t => ResolvedValue.tgt t
       | Option.none => init) := by
  induction ts with
  | nil => rfl
  | cons t rest ih =>
    by_cases h : step3Match tname arch plat t = true
    · simp [resolveStep3, List.find?_cons_of_pos, h]
    · simp only [Bool.not_eq_true] at h
      simp [resolveStep3, List.find?_cons_of_neg, h, ih]

/-- The scan returns a member of the list, or leaves the value unchanged. -/
theorem resolveStep3_result (tname arch plat : Option String)
    (ts : List Target) (init : ResolvedValue) :
    (∃ t ∈ ts, resolveStep3 tname arch plat ts init = ResolvedValue.tgt t) ∨
      resolveStep3 tname arch plat ts init = init := by
  rw [resolveStep3_eq_find]
  cases hf : ts.find? (step3Match tname arch plat) with
  | none => right; rfl
  | some t => left; exact ⟨t, List.mem_of_find?_eq_some hf, rfl⟩

/-- The backward basename scan returns a listed binary or leaves None. -/
theorem backwardMatch_result (answer : String) (bs : List Binary) :
    (∃ b ∈ bs, backwardMatch answer bs = ResolvedValue.bin b) ∨
      backwardMatch answer bs = ResolvedValue.unset := by
  induction bs with
  | nil => right; rfl
  | cons b rest ih =>
    by_cases h : (answer == basename b.binary) = true
    · left; exact ⟨b, List.mem_cons_self b rest, by simp [backwardMatch, h]⟩
    · simp only [Bool.not_eq_true] at h
      have he : backwardMatch answer (b :: rest) = backwardMatch answer rest := by
        simp [backwardMatch, h]
      rw [he]
      rcases ih with ⟨c, hc, hce⟩ | hce
      · exact Or.inl ⟨c, List.mem_cons_of_mem b hc, hce⟩
      · exact Or.inr hce

/-- Automatic resolution yields a declared target, a declared binary, or the
initial value. -/
theorem resolveAuto_result (app : AppModel) (tname arch plat : Option String) :
    (∃ t ∈ app.targets, resolveAuto app tname arch plat = ResolvedValue.tgt t) ∨
    (∃ b ∈ app.binaries, resolveAuto app tname arch plat = ResolvedValue.bin b) ∨
      resolveAuto app tname arch plat = initialValue tname := by
  rcases hts : app.targets with _ | ⟨t1, _ | ⟨t2, rest⟩⟩
  · rcases hbs : app.binaries with _ | ⟨b1, _ | ⟨b2, brest⟩⟩
    · right; right; simp [resolveAuto, hts, hbs, resolveStep3]
    · right; left
      exact ⟨b1, List.mem_cons_self b1 [], by simp [resolveAuto, hts, hbs]⟩
    · right; right; simp [resolveAuto, hts, hbs, resolveStep3]
  · left
    exact ⟨t1, List.mem_cons_self t1 [], by simp [resolveAuto, hts]⟩
  · rcases hbs : app.binaries with _ | ⟨b1, _ | ⟨b2, brest⟩⟩
    · have he : resolveAuto app tname arch plat =
          resolveStep3 tname arch plat (t1 :: t2 :: rest) (initialValue tname) := by
        simp [resolveAuto, hts, hbs]
      rcases resolveStep3_result tname arch plat (t1 :: t2 :: rest) (initialValue tname) with
        ⟨t, htm, hte⟩ | hte
      · left; exact ⟨t, htm, by rw [he, hte]⟩
      · right; right; rw [he, hte]
    · right; left
      exact ⟨b1, List.mem_cons_self b1 [], by simp [resolveAuto, hts, hbs]⟩
    · have he : resolveAuto app tname arch plat =
          resolveStep3 tname arch plat (t1 :: t2 :: rest) (initialValue tname) := by
        simp [resolveAuto, hts, hbs]
      rcases resolveStep3_result tname arch plat (t1 :: t2 :: rest) (initialValue tname) with
        ⟨t, htm, hte⟩ | hte
      · left; exact ⟨t, htm, by rw [he, hte]⟩
      · right; right; rw [he, hte]

/-- A MissingComponent classification names a component. -/
theorem isMissingErr_eq_true {o : Option KraftError} (h : isMissingErr o = true) :
    ∃ c, o = some (KraftError.missingComponent c) := by
  match o with
  | Option.none => simp [isMissingErr] at h
  | some (.missingComponent c) => exact ⟨c, rfl⟩
  | some .valueError => simp [isMissingErr] at h
  | some .nonInteractiveMenuConfig => simp [isMissingErr] at h
  | some .cannotConfigureApplication => simp [isMissingErr] at h
  | some (.engineError m) => simp [isMissingErr] at h


/-- C1: evaluated at enable=[a], disable=[a], the normalizer emits both
CONFIG_a=y and CONFIG_a=n and raises no ConflictingOption failure: the
conflict check compares the bare key against full KEY=VALUE entries, so it
never fires on an enabled-then-disabled key. -/
theorem c1_conflict_check_never_fires :
    normalizeOptions ["a"] ["a"] [] = .ok ["CONFIG_a=y", "CONFIG_a=n"] := rfl

/-- C2 counterexample: component persistently missing, every pull succeeding:
three attempts of fuel perform three fetches and the run is still recursing,
instead of stopping non-zero after the single permitted retry (which would
give exitNonZero with one fetch). -/
theorem c2_counterexample :
    cmdConfigureRun (fun _ => envMissing) (fun _ => true) true false
        Option.none Option.none Option.none false [] 3 0 false 0 =
      (RunResult.outOfFuel, 3) := rfl

/-- C2 (amended): with every attempt failing on a missing component and every
fetch succeeding, the recovery re-enters after each failure — force mode
auto-confirms the pull — so the recursion never terminates: it exhausts any
fuel bound, performing one fetch per attempt. -/
theorem c2_unbounded_retry (envs : Nat → KraftEnv) (tname arch plat : Option String)
    (menu : Bool) (options : List String)
    (h : ∀ i f, isMissingErr (kraftConfigure (envs i) tname arch plat f menu options).2 = true)
    (fuel attempt : Nat) (force : Bool) (fc : Nat) :
    cmdConfigureRun envs (fun _ => true) true false tname arch plat menu options
      fuel attempt force fc = (RunResult.outOfFuel, fc + fuel) := by
  induction fuel generalizing attempt force fc with
  | zero => rfl
  | succ n ih =>
    obtain ⟨c, hc⟩ := isMissingErr_eq_true (h attempt force)
    have hadd : fc + 1 + n = fc + (n + 1) := by omega
    unfold cmdConfigureRun
    rw [hc]
    simp only [Bool.or_true, if_true]
    rw [ih (attempt + 1) true (fc + 1), hadd]

/-- C2 amended-claim witness at a concrete world. -/
theorem c2_unbounded_retry_witness :
    cmdConfigureRun (fun _ => envMissing) (fun _ => true) true false
        Option.none Option.none Option.none false [] 2 0 false 0 =
      (RunResult.outOfFuel, 0 + 2) :=
  c2_unbounded_retry (fun _ => envMissing) Option.none Option.none Option.none false []
    (fun i f => by cases f <;> rfl) 2 0 false 0

/-- C3 counterexample: a supplied target name matching no declared target is
handed to the configure step as the raw string, the run succeeds, and no
NoTargetResolved failure occurs. -/
theorem c3_counterexample :
    (kraftConfigure envTwoBin (some ("nope")) Option.none Option.none false false []).1 =
      [KraftEvent.appLoaded,
       KraftEvent.configured (ResolvedValue.str "nope") [] false,
       KraftEvent.savedYaml] ∧
    (kraftConfigure envTwoBin (some ("nope")) Option.none Option.none false false []).2 =
      Option.none := ⟨rfl, rfl⟩

/-- C3 (amended): the value the resolution pipeline hands onward is total and
ranges over the application's own entities or the caller's string: a Target
result is a declared target, a Binary result is a declared binary, and a
string result is exactly the caller's unmatched target name; no
NoTargetResolved failure exists. -/
theorem c3_resolution_range (app : AppModel) (tname arch plat : Option String)
    (answer : String) :
    (∀ t, fullResolve app tname arch plat answer = ResolvedValue.tgt t → t ∈ app.targets) ∧
    (∀ b, fullResolve app tname arch plat answer = ResolvedValue.bin b → b ∈ app.binaries) ∧
    (∀ s, fullResolve app tname arch plat answer = ResolvedValue.str s → tname = some s) := by
  rcases resolveAuto_result app tname arch plat with ⟨t, ht, he⟩ | ⟨b, hb, he⟩ | he
  · refine ⟨?_, ?_, ?_⟩ <;> intro v hv <;> simp only [fullResolve, he] at hv
    · cases hv; exact ht
    · cases hv
    · cases hv
  · refine ⟨?_, ?_, ?_⟩ <;> intro v hv <;> simp only [fullResolve, he] at hv
    · cases hv
    · cases hv; exact hb
    · cases hv
  · cases htn : tname with
    | some s =>
      rw [htn] at he
      simp only [initialValue] at he
      refine ⟨?_, ?_, ?_⟩ <;> intro v hv <;> simp only [fullResolve, he] at hv
      · cases hv
      · cases hv
      · cases hv; rfl
    | none =>
      rw [htn] at he
      simp only [initialValue] at he
      rcases backwardMatch_result answer app.binaries with ⟨b, hb, hbm⟩ | hbm
      · refine ⟨?_, ?_, ?_⟩ <;> intro v hv <;> simp only [fullResolve, he, hbm] at hv
        · cases hv
        · cases hv; exact hb
        · cases hv
      · refine ⟨?_, ?_, ?_⟩ <;> intro v hv <;> simp only [fullResolve, he, hbm] at hv
        all_goals cases hv

/-- C3 amended-claim witness: a Target result of the pipeline is a declared
target. -/
theorem c3_resolution_range_witness : tgtA ∈ appSingle.targets :=
  (c3_resolution_range appSingle Option.none Option.none Option.none ("")).1 tgtA rfl

/-- C4 counterexample: two targets and exactly one binary — the resolver
yields the binary entity itself, which differs from the target entity the
binary names. -/
theorem c4_counterexample :
    resolveAuto appOneBin Option.none Option.none Option.none = ResolvedValue.bin binA ∧
    ResolvedValue.bin binA ≠ ResolvedValue.tgt tgtA := by
  exact ⟨rfl, by decide⟩

/-- C4 (amended): with several targets and exactly one binary, the resolver
selects the binary entity itself — not the target entity associated with it —
and that binary entity is what reaches the configure call. -/
theorem c4_single_binary_selects_binary (env : KraftEnv) (b : Binary)
    (tname arch plat : Option String) (options : List String)
    (hw : env.workdirExists = true)
    (ht : env.app.targets.length ≠ 1)
    (hb : env.app.binaries = [b]) :
    KraftEvent.configured (ResolvedValue.bin b) options true ∈
      (kraftConfigure env tname arch plat true false options).1 := by
  have hra : resolveAuto env.app tname arch plat = ResolvedValue.bin b := by
    rcases hts : env.app.targets with _ | ⟨t1, _ | ⟨t2, r⟩⟩
    · simp [resolveAuto, hts, hb]
    · rw [hts] at ht; simp at ht
    · simp [resolveAuto, hts, hb]
  cases he : env.engineResult <;> simp [kraftConfigure, hw, hra, he]

/-- C4 amended-claim witness at a concrete world. -/
theorem c4_single_binary_selects_binary_witness :
    KraftEvent.configured (ResolvedValue.bin binA) [] true ∈
      (kraftConfigure envOneBin Option.none Option.none Option.none true false []).1 :=
  c4_single_binary_selects_binary envOneBin binA Option.none Option.none Option.none []
    rfl (by decide) rfl

/-- C5: an application exposing exactly one declared target resolves to that
target for every combination of target, architecture and platform hints,
matching or not. -/
theorem c5_single_target_wins (t : Target) (bs : List Binary) (cfg : Bool)
    (tname arch plat : Option String) :
    resolveAuto { targets := [t], binaries := bs, isConfigured := cfg } tname arch plat =
      ResolvedValue.tgt t := rfl

/-- C6: with at least two targets, more than one binary, and a supplied name
equal to the second declared target's name but not the first's, resolution
returns the second target; and in general the scan equals first-match over
the declared order, stopping at the first target whose name equals the hint
or whose architecture and platform both equal the hints. -/
theorem c6_first_match (t1 t2 : Target) (rest : List Target) (bs : List Binary)
    (cfg : Bool) (s : String)
    (h1 : t1.name ≠ some s) (h2 : t2.name = some s) (hb : bs.length ≠ 1) :
    resolveAuto { targets := t1 :: t2 :: rest, binaries := bs, isConfigured := cfg }
        (some s) Option.none Option.none = ResolvedValue.tgt t2 ∧
    ∀ (tname arch plat : Option String) (ts : List Target) (init : ResolvedValue),
      resolveStep3 tname arch plat ts init =
        (match ts.find? (step3Match tname arch plat) with
         | some t => ResolvedValue.tgt t
         | Option.none => init) := by
  constructor
  · have hm1 : step3Match (some s) Option.none Option.none t1 = false := by
      simp [step3Match, beq_iff_eq]
      exact fun hx => h1 hx.symm
    have hm2 : step3Match (some s) Option.none Option.none t2 = true := by
      simp [step3Match, beq_iff_eq, h2]
    rcases bs with _ | ⟨b, _ | ⟨b2, brest⟩⟩
    · simp [resolveAuto, resolveStep3, hm1, hm2]
    · simp at hb
    · simp [resolveAuto, resolveStep3, hm1, hm2]
  · exact fun tname arch plat ts init => resolveStep3_eq_find tname arch plat ts init

/-- C6 witness at a concrete two-target application. -/
theorem c6_first_match_witness :
    resolveAuto { targets := [tgtA, tgtB], binaries := [], isConfigured := false }
        (some ("app-xen")) Option.none Option.none = ResolvedValue.tgt tgtB :=
  (c6_first_match tgtA tgtB [] [] false ("app-xen") (by decide) rfl (by decide)).1

/-- C7 counterexample: the namespace is applied to the explicit setting too —
the third emitted assignment is CONFIG_c=2, not the claimed untouched c=2. -/
theorem c7_counterexample :
    normalizeOptions ["a"] ["b"] ["c=2"] =
      .ok ["CONFIG_a=y", "CONFIG_b=n", "CONFIG_c=2"] ∧
    ("CONFIG_c=2" : String) ≠ "c=2" := ⟨rfl, by decide⟩

/-- C7 (amended): for enable=[a], disable=[b], set=[c] with no token already
namespaced, normalization emits exactly the namespaced enable assignment, the
namespaced disable assignment, and the namespaced setting — the namespace is
applied to the set token as well. -/
theorem c7_all_tokens_namespaced (a b c : String)
    (ha : a.startsWith KCONFIG_NS = false)
    (hb : b.startsWith KCONFIG_NS = false)
    (hc : c.startsWith KCONFIG_NS = false)
    (hcEq : strHasChar (KCONFIG c) ('=') = true)
    (hne : KCONFIG b ≠ KCONFIG_EQ (KCONFIG a) KCONFIG_Y) :
    normalizeOptions [a] [b] [c] =
      .ok [KCONFIG_EQ (KCONFIG a) KCONFIG_Y, KCONFIG_EQ (KCONFIG b) KCONFIG_N, KCONFIG c] := by
  simp [normalizeOptions, normKey, ha, hb, hc, procNo, procSet, hcEq, hne,
    List.contains, beq_iff_eq]

/-- C7 amended-claim witness at the spec's example input. -/
theorem c7_all_tokens_namespaced_witness :
    normalizeOptions ["a"] ["b"] ["c=2"] =
      .ok [KCONFIG_EQ (KCONFIG ("a")) KCONFIG_Y, KCONFIG_EQ (KCONFIG ("b")) KCONFIG_N,
        KCONFIG ("c=2")] :=
  c7_all_tokens_namespaced ("a") ("b") ("c=2") rfl rfl rfl rfl (by decide)

/-- C8 counterexample: no terminal attached and resolution inconclusive — the
blocking prompt is still invoked and the run raises no error at all. -/
theorem c8_counterexample :
    (kraftConfigure envNoTty Option.none Option.none Option.none true false []).1 =
      [KraftEvent.appLoaded,
       KraftEvent.promptInvoked ["app_kvm-x86_64 (app-kvm)", "app_xen-arm64 (app-xen)"],
       KraftEvent.configured ResolvedValue.unset [] true,
       KraftEvent.savedYaml] ∧
    (kraftConfigure envNoTty Option.none Option.none Option.none true false []).2 =
      Option.none := ⟨rfl, rfl⟩

/-- C8 (amended): whenever automatic resolution yields nothing, the
interactive fallback invokes the prompt with the binary labels — no terminal
check guards it, so this holds for every isatty value. -/
theorem c8_prompt_unguarded (env : KraftEnv) (tname arch plat : Option String)
    (options : List String)
    (hw : env.workdirExists = true)
    (hr : resolveAuto env.app tname arch plat = ResolvedValue.unset) :
    KraftEvent.promptInvoked (env.app.binaries.map binLabel) ∈
      (kraftConfigure env tname arch plat true false options).1 := by
  cases he : env.engineResult <;> simp [kraftConfigure, hw, hr, he]

/-- C8 amended-claim witness at a non-tty world. -/
theorem c8_prompt_unguarded_witness :
    KraftEvent.promptInvoked (envNoTty.app.binaries.map binLabel) ∈
      (kraftConfigure envNoTty Option.none Option.none Option.none true false []).1 :=
  c8_prompt_unguarded envNoTty Option.none Option.none Option.none [] rfl rfl

/-- C9 counterexample: menu editor requested on a non-tty together with a
malformed set token — the invocation fails with MissingOptionValue from
option normalization, not with NonInteractiveMenuConfig: normalization runs
before the menu-editor check. -/
theorem c9_counterexample :
    cmdConfigure envNoTty Option.none Option.none Option.none false true [] [] ["x"] =
      ([], some (CmdFailure.normFailure (NormError.missingOptionValue ("CONFIG_x")))) := rfl

/-- C9 (amended): when normalization succeeds, requesting the menu editor
without a terminal fails with NonInteractiveMenuConfig before any target
resolution — the trace holds only the application load — but after option
normalization, which cmd_configure always performs first. -/
theorem c9_menuconfig_after_normalization (env : KraftEnv) (tname arch plat : Option String)
    (force : Bool) (yes no opts options : List String)
    (hn : normalizeOptions yes no opts = .ok options)
    (hw : env.workdirExists = true)
    (ht : env.isatty = false) :
    cmdConfigure env tname arch plat force true yes no opts =
      ([KraftEvent.appLoaded],
        some (CmdFailure.kraftFailure KraftError.nonInteractiveMenuConfig)) := by
  simp [cmdConfigure, hn, kraftConfigure, hw, ht]

/-- C9 amended-claim witness at a non-tty world with empty option lists. -/
theorem c9_menuconfig_after_normalization_witness :
    cmdConfigure envNoTty Option.none Option.none Option.none false true [] [] [] =
      ([KraftEvent.appLoaded],
        some (CmdFailure.kraftFailure KraftError.nonInteractiveMenuConfig)) :=
  c9_menuconfig_after_normalization envNoTty Option.none Option.none Option.none false
    [] [] [] [] rfl rfl rfl

/-- C10: any option-normalization failure ends the invocation with an empty
event trace — the application is never loaded, configured or persisted — and
reports exactly the normalization error. -/
theorem c10_norm_failure_preempts_load (env : KraftEnv) (tname arch plat : Option String)
    (force menu : Bool) (yes no opts : List String) (e : NormError)
    (h : normalizeOptions yes no opts = .error e) :
    cmdConfigure env tname arch plat force menu yes no opts =
      ([], some (CmdFailure.normFailure e)) := by
  simp [cmdConfigure, h]

/-- C10 witness at a malformed set token. -/
theorem c10_norm_failure_preempts_load_witness :
    cmdConfigure envTwoBin Option.none Option.none Option.none false false [] [] ["x"] =
      ([], some (CmdFailure.normFailure (NormError.missingOptionValue ("CONFIG_x")))) :=
  c10_norm_failure_preempts_load envTwoBin Option.none Option.none Option.none false false
    [] [] ["x"] (NormError.missingOptionValue ("CONFIG_x")) rfl

end Kraft
